import Mathlib

/-!
Verification of the property-listing backend (src/index.js), a small Express
service exposing list / create / delete operations over a Firestore
collection.  The JavaScript handlers are shallowly embedded: JSON values
become an inductive type `JsVal`, request bodies and stored documents become
association lists (`JsObj`) whose lookup takes the LAST binding for a key,
matching the semantics of JavaScript object literals with spreads where a
later assignment overwrites an earlier one.  The Firestore collection is a
list of (document id, document) pairs; each store interaction that may fail
over the network is given an explicit `Option String` parameter carrying the
thrown error, `none` meaning success.
-/

namespace PropertyListing

/-- JSON-like JavaScript values as they appear in request bodies and stored
documents.  `undefined` is represented by absence of a key (an `objGet`
returning `none`), so it needs no constructor. -/
inductive JsVal where
  | vStr : String → JsVal
  | vNum : Int → JsVal
  | vBool : Bool → JsVal
  | vNull : JsVal
  | vArr : List JsVal → JsVal
  | vObj : List (String × JsVal) → JsVal

/-- A JavaScript object: an association list of fields.  Lookup takes the
last binding of a key, so `o ++ [(k, v)]` models the object literal spread
with a trailing overwrite of `k` by `v`. -/
abbrev JsObj := List (String × JsVal)

/-- Field lookup with last-binding-wins semantics, matching the result of
evaluating a JavaScript object literal left to right. -/
def objGet : JsObj → String → Option JsVal
  | [], _ => none
  | (k₀, v₀) :: rest, k =>
    match objGet rest k with
    | some w => some w
    | none => if k₀ = k then some v₀ else none

/-- JavaScript truthiness on our value domain: the falsy values are
`false`, `0`, the empty string and `null`; arrays and objects are truthy. -/
def truthy : JsVal → Bool
  | .vStr s => ¬ s = ""
  | .vNum n => ¬ n = 0
  | .vBool b => b
  | .vNull => false
  | .vArr _ => true
  | .vObj _ => true

/-- Truthiness of a field access `o.k`: a missing key reads as `undefined`,
which is falsy. -/
def truthyField (o : JsObj) (k : String) : Bool :=
  match objGet o k with
  | some v => truthy v
  | none => false

/-- The validation test of the create handler, line 71 of src/index.js:
`!newPropertyData.name || !newPropertyData.price || !newPropertyData.location`
negated, i.e. `true` exactly when all three required fields are truthy. -/
def requiredOk (body : JsObj) : Bool :=
  truthyField body "name" && truthyField body "price" && truthyField body "location"

/-- Characters matched by the JavaScript regular expression class `\s`
(the ASCII portion plus no-break space; the handler applies it to names). -/
def jsSpace (c : Char) : Bool :=
  c = ' ' || c = '\t' || c = '\n' || c = '\x0d' || c = '\x0b' || c = '\x0c' || c = ' '

/-- The effect of `name.replace(/\s/g, '+')` on a string: every whitespace
character is replaced by a plus sign. -/
def plusSpaces (s : String) : String :=
  ⟨s.data.map (fun c => if jsSpace c then '+' else c)⟩

/-- The placeholder image URL built on line 78 of src/index.js for a
string-valued name. -/
def placeholderUrl (s : String) : String :=
  "https://placehold.co/600x400/cccccc/333?text=" ++ plusSpaces s

/-- HTTP responses produced by the handlers: a status code and a JSON body. -/
structure Response where
  status : Nat
  body : JsVal

/-- The JSON error bodies `{ error: msg }` sent by the handlers. -/
def errObj (msg : String) : JsVal :=
  .vObj [("error", .vStr msg)]

/-- The Firestore collection as seen through the handlers: documents with
their store-assigned ids, in store iteration order. -/
abbrev Store := List (String × JsObj)

/-- Document lookup by id, as `propertiesCollectionRef.doc(id).get()`
followed by the `doc.exists` test. -/
def storeLookup (store : Store) (id : String) : Option JsObj :=
  (store.find? (fun p => p.1 = id)).map (fun p => p.2)

/-- The document construction of lines 76-79 of src/index.js:
`{...newPropertyData, image: newPropertyData.image || placeholder}`.
The `||` short-circuits, so the placeholder expression only runs when
`newPropertyData.image` is absent or falsy; it calls `.replace` on
`newPropertyData.name`, which throws a TypeError unless the name is a
string.  `none` models that throw (caught by the try/catch of the handler). -/
def buildDocData (body : JsObj) : Option JsObj :=
  match objGet body "image" with
  | some img =>
    if truthy img then some (body ++ [("image", img)])
    else
      match objGet body "name" with
      | some (.vStr s) => some (body ++ [("image", .vStr (placeholderUrl s))])
      | _ => none
  | none =>
    match objGet body "name" with
    | some (.vStr s) => some (body ++ [("image", .vStr (placeholderUrl s))])
    | _ => none

/-- The GET /api/properties handler (lines 45-61 of src/index.js).
`readErr` is the error thrown by `propertiesCollectionRef.get()`, if any.
On success each document is returned as `{id: doc.id, ...doc.data()}`. -/
def listHandler (store : Store) (readErr : Option String) : Response :=
  match readErr with
  | some _ => ⟨500, errObj "Failed to fetch properties from the database."⟩
  | none => ⟨200, .vArr (store.map (fun p => .vObj (("id", .vStr p.1) :: p.2)))⟩

/-- The POST /api/properties handler (lines 65-93 of src/index.js).
`newId` is the id Firestore would assign to the inserted document and
`insertErr` the error thrown by `propertiesCollectionRef.add`, if any.
Returns the response together with the store after the request. -/
def createHandler (body : JsObj) (store : Store) (newId : String)
    (insertErr : Option String) : Response × Store :=
  if requiredOk body = false then
    (⟨400, errObj "Missing required property fields."⟩, store)
  else
    match buildDocData body with
    | none => (⟨500, errObj "Failed to add property to the database."⟩, store)
    | some docData =>
      match insertErr with
      | some _ => (⟨500, errObj "Failed to add property to the database."⟩, store)
      | none =>
        (⟨201, .vObj (("id", .vStr newId) :: docData)⟩, store ++ [(newId, docData)])

/-- The DELETE /api/properties/:id handler (lines 97-115 of src/index.js).
`getErr` is the error thrown by `docRef.get()` and `delErr` the error
thrown by `docRef.delete()`, if any.  Returns the response together with
the store after the request. -/
def deleteHandler (id : String) (store : Store) (getErr delErr : Option String) :
    Response × Store :=
  match getErr with
  | some _ => (⟨500, errObj "Failed to delete property from the database."⟩, store)
  | none =>
    match storeLookup store id with
    | none => (⟨404, errObj "Property not found."⟩, store)
    | some _ =>
      match delErr with
      | some _ => (⟨500, errObj "Failed to delete property from the database."⟩, store)
      | none =>
        (⟨200, .vObj [("message", .vStr "Property deleted successfully.")]⟩,
          store.filter (fun p => ¬ p.1 = id))

end PropertyListing

namespace PropertyListing

/-- Looking up the key appended last finds its value: the trailing `image`
binding of a spread-with-overwrite wins. -/
theorem objGet_append_last (o : JsObj) (k : String) (v : JsVal) :
    objGet (o ++ [(k, v)]) k = some v := by
  induction o with
  | nil => simp [objGet]
  | cons p rest ih =>
    obtain ⟨k₀, v₀⟩ := p
    simp [objGet, ih]

/-- Appending a binding for a different key does not change a lookup. -/
theorem objGet_append_ne (o : JsObj) {k k₁ : String} (v : JsVal) (h : ¬ k₁ = k) :
    objGet (o ++ [(k₁, v)]) k = objGet o k := by
  induction o with
  | nil => simp [objGet, h]
  | cons p rest ih =>
    obtain ⟨k₀, v₀⟩ := p
    simp [objGet, ih]

/-- A leading binding never masks a later one. -/
theorem objGet_cons_of_some {k₀ k : String} (v₀ w : JsVal) (o : JsObj)
    (h : objGet o k = some w) : objGet ((k₀, v₀) :: o) k = some w := by
  simp [objGet, h]

/-- When the image is absent or falsy and the name is not a string,
the document construction throws (`name.replace` is not a function). -/
theorem buildDocData_of_nonstring_name {body : JsObj}
    (h : truthyField body "image" = false)
    (hn : ∀ s, ¬ objGet body "name" = some (.vStr s)) :
    buildDocData body = none := by
  unfold buildDocData
  split
  next img hi =>
    have ht : truthy img = false := by
      unfold truthyField at h
      rw [hi] at h
      exact h
    rw [if_neg (by simp [ht])]
    split
    next s hv => exact absurd hv (hn s)
    next hv => rfl
  next hi =>
    split
    next s hv => exact absurd hv (hn s)
    next hv => rfl

/-- Every document the construction produces is the body plus a trailing
image binding. -/
theorem buildDocData_shape {body d : JsObj} (h : buildDocData body = some d) :
    ∃ x, d = body ++ [("image", x)] := by
  unfold buildDocData at h
  split at h
  next img hi =>
    split at h
    · exact ⟨img, (Option.some.inj h).symm⟩
    · split at h
      next s hv => exact ⟨.vStr (placeholderUrl s), (Option.some.inj h).symm⟩
      next hv => cases h
  next hi =>
    split at h
    next s hv => exact ⟨.vStr (placeholderUrl s), (Option.some.inj h).symm⟩
    next hv => cases h

/-- C1: a creation request in which any of the fields `name`, `price`,
`location` is missing or falsy is answered with status 400 and the body
`(error, Missing required property fields.)`, and the store is returned
unchanged whatever the store would have done (no insertion happens). -/
theorem create_rejects_missing_fields (body : JsObj) (store : Store)
    (newId : String) (insertErr : Option String)
    (h : truthyField body "name" = false ∨ truthyField body "price" = false ∨
      truthyField body "location" = false) :
    createHandler body store newId insertErr =
      (⟨400, errObj "Missing required property fields."⟩, store) := by
  have hreq : requiredOk body = false := by
    rcases h with h | h | h <;> simp [requiredOk, h]
  simp [createHandler, hreq]

/-- C1 witness: the body holding only a name, as in the spec example, is
rejected with 400 and an empty store stays empty. -/
theorem create_rejects_missing_fields_witness :
    (truthyField [("name", JsVal.vStr "X")] "name" = false ∨
      truthyField [("name", JsVal.vStr "X")] "price" = false ∨
      truthyField [("name", JsVal.vStr "X")] "location" = false) ∧
    createHandler [("name", JsVal.vStr "X")] [] "doc1" none =
      (⟨400, errObj "Missing required property fields."⟩, ([] : Store)) :=
  ⟨by decide, create_rejects_missing_fields _ _ _ _ (by decide)⟩

/-- C4: deleting an id whose lookup succeeds but finds no document is
answered with status 404 and the body `(error, Property not found.)`, and
the store is returned unchanged — the deletion call is never reached, so
the conclusion holds for every behavior of `docRef.delete`. -/
theorem delete_missing_id_404 (id : String) (store : Store)
    (delErr : Option String) (h : storeLookup store id = none) :
    deleteHandler id store none delErr =
      (⟨404, errObj "Property not found."⟩, store) := by
  simp [deleteHandler, h]

/-- C4 witness: deleting `unknown-id` from the empty store yields 404 and
leaves the store empty. -/
theorem delete_missing_id_404_witness :
    storeLookup [] "unknown-id" = none ∧
    deleteHandler "unknown-id" [] none none =
      (⟨404, errObj "Property not found."⟩, ([] : Store)) :=
  ⟨rfl, delete_missing_id_404 _ _ _ rfl⟩

/-- C5: deleting an id that is present (with both store calls succeeding)
answers 200 with the confirmation message, and the resulting store holds
exactly the documents whose id differs from the deleted one — the deleted
id no longer resolves, and every other document survives unchanged. -/
theorem delete_existing_id_200 (id : String) (store : Store) (d : JsObj)
    (h : storeLookup store id = some d) :
    deleteHandler id store none none =
      (⟨200, .vObj [("message", .vStr "Property deleted successfully.")]⟩,
        store.filter (fun p => ¬ p.1 = id)) ∧
    storeLookup (store.filter (fun p => ¬ p.1 = id)) id = none ∧
    (∀ p, p ∈ store.filter (fun p => ¬ p.1 = id) ↔ p ∈ store ∧ ¬ p.1 = id) := by
  refine ⟨by simp [deleteHandler, h], ?_, ?_⟩
  · simp [storeLookup, List.find?_eq_none, List.mem_filter]
  · intro p
    simp [List.mem_filter]

/-- C5 witness: deleting id `a` from a two-document store keeps only the
other document, which the deleted id no longer resolves while `b` does. -/
theorem delete_existing_id_200_witness :
    storeLookup [("a", []), ("b", [])] "a" = some [] ∧
    deleteHandler "a" [("a", []), ("b", [])] none none =
      (⟨200, .vObj [("message", .vStr "Property deleted successfully.")]⟩,
        [("b", ([] : JsObj))]) ∧
    storeLookup [("b", ([] : JsObj))] "a" = none := by
  have h := delete_existing_id_200 "a" [("a", []), ("b", [])] [] rfl
  refine ⟨rfl, ?_, ?_⟩
  · exact h.1
  · exact h.2.1

/-- C6: a list request whose store read succeeds is answered with 200 and
one object per stored document, pairing the store-assigned id (bound
first, as `(id: doc.id, ...doc.data())`) with the stored fields, in store
order; the count matches the store and an empty store yields `[]`. -/
theorem list_returns_every_document (store : Store) :
    listHandler store none =
      ⟨200, .vArr (store.map (fun p => .vObj (("id", .vStr p.1) :: p.2)))⟩ ∧
    (store.map (fun p => JsVal.vObj (("id", .vStr p.1) :: p.2))).length =
      store.length ∧
    listHandler [] none = ⟨200, .vArr []⟩ := by
  exact ⟨rfl, by simp, rfl⟩

/-- C9: when a valid creation body itself carries an `id` field, that
value is stored verbatim in the inserted document, the 201 response
reports it as `id` (the body spread follows the store id, so the
caller-supplied binding wins the lookup), and the listing entry for the
new document — built as the last element of the listed sequence — reports
it as well. -/
theorem create_caller_id_shadows_store_id (body : JsObj) (store : Store)
    (newId : String) (v : JsVal) (d : JsObj)
    (h : requiredOk body = true) (hid : objGet body "id" = some v)
    (hd : buildDocData body = some d) :
    createHandler body store newId none =
      (⟨201, .vObj (("id", .vStr newId) :: d)⟩, store ++ [(newId, d)]) ∧
    objGet d "id" = some v ∧
    objGet (("id", .vStr newId) :: d) "id" = some v ∧
    listHandler (store ++ [(newId, d)]) none =
      ⟨200, .vArr ((store ++ [(newId, d)]).map
        (fun p => .vObj (("id", .vStr p.1) :: p.2)))⟩ ∧
    ((store ++ [(newId, d)]).map
        (fun p => JsVal.vObj (("id", .vStr p.1) :: p.2))).getLast? =
      some (.vObj (("id", .vStr newId) :: d)) := by
  obtain ⟨x, hx⟩ := buildDocData_shape hd
  have hdid : objGet d "id" = some v := by
    rw [hx, objGet_append_ne _ _ (by decide), hid]
  refine ⟨by simp [createHandler, h, hd], hdid,
    objGet_cons_of_some _ _ _ hdid, rfl, ?_⟩
  simp

/-- C9 witness: a valid body carrying `id` bound to `mine` is stored and
reported with `id` equal to `mine`, not the store-assigned `doc1`. -/
theorem create_caller_id_shadows_store_id_witness :
    requiredOk [("name", JsVal.vStr "X"), ("price", JsVal.vNum 1),
      ("location", JsVal.vStr "L"), ("id", JsVal.vStr "mine")] = true ∧
    objGet [("name", JsVal.vStr "X"), ("price", JsVal.vNum 1),
      ("location", JsVal.vStr "L"), ("id", JsVal.vStr "mine")] "id" =
      some (JsVal.vStr "mine") ∧
    objGet (("id", JsVal.vStr "doc1") ::
        ([("name", JsVal.vStr "X"), ("price", JsVal.vNum 1),
          ("location", JsVal.vStr "L"), ("id", JsVal.vStr "mine")] ++
          [("image", JsVal.vStr (placeholderUrl "X"))])) "id" =
      some (JsVal.vStr "mine") := by
  have h := create_caller_id_shadows_store_id
    [("name", JsVal.vStr "X"), ("price", JsVal.vNum 1),
      ("location", JsVal.vStr "L"), ("id", JsVal.vStr "mine")] [] "doc1"
    (JsVal.vStr "mine")
    ([("name", JsVal.vStr "X"), ("price", JsVal.vNum 1),
      ("location", JsVal.vStr "L"), ("id", JsVal.vStr "mine")] ++
      [("image", JsVal.vStr (placeholderUrl "X"))])
    (by decide) rfl rfl
  exact ⟨by decide, rfl, h.2.2.1⟩

/-- C10: a creation body whose three required fields are truthy but whose
name is not a string, with `image` absent or falsy, makes the handler
throw in `name.replace` before the insertion is reached: the response is
the generic 500 add-failure message — not a 400 — and the store is
returned unchanged whatever the insertion would have done. -/
theorem create_nonstring_name_500 (body : JsObj) (store : Store)
    (newId : String) (insertErr : Option String)
    (h : requiredOk body = true)
    (hn : ∀ s, ¬ objGet body "name" = some (.vStr s))
    (hi : truthyField body "image" = false) :
    createHandler body store newId insertErr =
      (⟨500, errObj "Failed to add property to the database."⟩, store) := by
  simp [createHandler, h, buildDocData_of_nonstring_name hi hn]

/-- C10 witness: a body whose name is the number 42 passes validation yet
creation answers 500 and inserts nothing, even with a healthy store. -/
theorem create_nonstring_name_500_witness :
    requiredOk [("name", JsVal.vNum 42), ("price", JsVal.vNum 1),
      ("location", JsVal.vStr "L")] = true ∧
    truthyField [("name", JsVal.vNum 42), ("price", JsVal.vNum 1),
      ("location", JsVal.vStr "L")] "image" = false ∧
    createHandler [("name", JsVal.vNum 42), ("price", JsVal.vNum 1),
        ("location", JsVal.vStr "L")] [] "doc1" none =
      (⟨500, errObj "Failed to add property to the database."⟩, ([] : Store)) := by
  refine ⟨by decide, by decide, ?_⟩
  exact create_nonstring_name_500 _ _ _ _ (by decide)
    (fun s hc => JsVal.noConfusion (Option.some.inj hc)) (by decide)

/-- C7: when a store interaction throws — the collection read, the
insertion after a validated body, the document lookup of a delete, or the
removal of a present document — the response status is 500 with the fixed
per-operation generic message, independent of the thrown error `err`, and
in the create and delete cases the store is returned unchanged. -/
theorem store_failure_returns_500 (err : String) (store : Store)
    (body : JsObj) (newId did : String) (d : JsObj) (delErr : Option String)
    (hval : requiredOk body = true) (hex : storeLookup store did = some d) :
    listHandler store (some err) =
      ⟨500, errObj "Failed to fetch properties from the database."⟩ ∧
    createHandler body store newId (some err) =
      (⟨500, errObj "Failed to add property to the database."⟩, store) ∧
    deleteHandler did store (some err) delErr =
      (⟨500, errObj "Failed to delete property from the database."⟩, store) ∧
    deleteHandler did store none (some err) =
      (⟨500, errObj "Failed to delete property from the database."⟩, store) := by
  refine ⟨rfl, ?_, rfl, ?_⟩
  · cases hb : buildDocData body with
    | none => simp [createHandler, hval, hb]
    | some dd => simp [createHandler, hval, hb]
  · simp [deleteHandler, hex]

/-- C7 witness: with the error `boom` thrown by the store, all three
operations answer 500 with their fixed messages and a one-document store
is left as it was. -/
theorem store_failure_returns_500_witness :
    requiredOk [("name", JsVal.vStr "N"), ("price", JsVal.vNum 2),
      ("location", JsVal.vStr "P")] = true ∧
    storeLookup [("a", [])] "a" = some [] ∧
    (listHandler [("a", [])] (some "boom") =
      ⟨500, errObj "Failed to fetch properties from the database."⟩ ∧
    createHandler [("name", JsVal.vStr "N"), ("price", JsVal.vNum 2),
        ("location", JsVal.vStr "P")] [("a", [])] "doc1" (some "boom") =
      (⟨500, errObj "Failed to add property to the database."⟩, [("a", [])]) ∧
    deleteHandler "a" [("a", [])] (some "boom") none =
      (⟨500, errObj "Failed to delete property from the database."⟩,
        [("a", [])]) ∧
    deleteHandler "a" [("a", [])] none (some "boom") =
      (⟨500, errObj "Failed to delete property from the database."⟩,
        [("a", [])])) :=
  ⟨by decide, rfl, store_failure_returns_500 "boom" [("a", [])]
    [("name", JsVal.vStr "N"), ("price", JsVal.vNum 2),
      ("location", JsVal.vStr "P")] "doc1" "a" [] none (by decide) rfl⟩

/-- The create handler either leaves the store as it was or appends the
one document produced by `buildDocData`. -/
theorem createHandler_store_cases (body : JsObj) (store : Store)
    (newId : String) (insertErr : Option String) :
    (createHandler body store newId insertErr).2 = store ∨
    ∃ d, buildDocData body = some d ∧
      (createHandler body store newId insertErr).2 = store ++ [(newId, d)] := by
  unfold createHandler
  split
  · exact Or.inl rfl
  · split
    · exact Or.inl rfl
    next d hb =>
      split
      · exact Or.inl rfl
      · exact Or.inr ⟨d, hb, rfl⟩

/-- The delete handler never adds documents: its resulting store is a
subset of the one it was given. -/
theorem deleteHandler_store_subset (id : String) (store : Store)
    (getErr delErr : Option String) :
    ∀ e ∈ (deleteHandler id store getErr delErr).2, e ∈ store := by
  unfold deleteHandler
  split
  · exact fun e he => he
  · split
    · exact fun e he => he
    · split
      · exact fun e he => he
      · exact fun e he => (List.mem_filter.mp he).1

/-- The stores reachable through the service, starting from an empty
collection: the list operation reads without writing, so only the create
and delete handlers can change the store. -/
inductive ReachableStore : Store → Prop where
  | init : ReachableStore []
  | createStep (body : JsObj) (newId : String) (insertErr : Option String)
      {s : Store} : ReachableStore s →
      ReachableStore (createHandler body s newId insertErr).2
  | deleteStep (id : String) (getErr delErr : Option String) {s : Store} :
      ReachableStore s → ReachableStore (deleteHandler id s getErr delErr).2

/-- C8: in every store the service can reach, each stored document carries
an `image` binding — creation always rebinds `image` (to the submitted
value or the generated placeholder) before inserting, and no other
operation adds documents. -/
theorem every_stored_document_has_image (s : Store) (h : ReachableStore s) :
    ∀ e ∈ s, (objGet e.2 "image").isSome = true := by
  induction h with
  | init => intro e he; cases he
  | createStep body newId insertErr hr ih =>
    rcases createHandler_store_cases body _ newId insertErr with hc | ⟨d, hb, hc⟩
    · rw [hc]; exact ih
    · rw [hc]
      intro e he
      rcases List.mem_append.mp he with h1 | h2
      · exact ih e h1
      · obtain ⟨x, hx⟩ := buildDocData_shape hb
        have : e = (newId, d) := by simpa using h2
        rw [this, hx]
        simp [objGet_append_last]
  | deleteStep id getErr delErr hr ih =>
    intro e he
    exact ih e (deleteHandler_store_subset _ _ _ _ e he)

/-- C8 witness: the store reached by one successful creation is a
singleton whose document carries an image binding. -/
theorem every_stored_document_has_image_witness :
    ("doc1", [("name", JsVal.vStr "A B"), ("price", JsVal.vNum 3),
      ("location", JsVal.vStr "C")] ++
      [("image", JsVal.vStr (placeholderUrl "A B"))]) ∈
      (createHandler [("name", JsVal.vStr "A B"), ("price", JsVal.vNum 3),
        ("location", JsVal.vStr "C")] [] "doc1" none).2 ∧
    (objGet ([("name", JsVal.vStr "A B"), ("price", JsVal.vNum 3),
      ("location", JsVal.vStr "C")] ++
      [("image", JsVal.vStr (placeholderUrl "A B"))]) "image").isSome = true := by
  have hmem : ("doc1", [("name", JsVal.vStr "A B"), ("price", JsVal.vNum 3),
      ("location", JsVal.vStr "C")] ++
      [("image", JsVal.vStr (placeholderUrl "A B"))]) ∈
      (createHandler [("name", JsVal.vStr "A B"), ("price", JsVal.vNum 3),
        ("location", JsVal.vStr "C")] [] "doc1" none).2 :=
    List.mem_singleton.mpr rfl
  exact ⟨hmem,
    every_stored_document_has_image
      (createHandler [("name", JsVal.vStr "A B"), ("price", JsVal.vNum 3),
        ("location", JsVal.vStr "C")] [] "doc1" none).2
      (ReachableStore.createStep [("name", JsVal.vStr "A B"),
        ("price", JsVal.vNum 3), ("location", JsVal.vStr "C")] "doc1" none
        ReachableStore.init)
      ("doc1", [("name", JsVal.vStr "A B"), ("price", JsVal.vNum 3),
        ("location", JsVal.vStr "C")] ++
        [("image", JsVal.vStr (placeholderUrl "A B"))]) hmem⟩

end PropertyListing
